import Mathlib

/-!
Shallow embedding of the Highway active-validator scheduler
(`node/src/components/consensus/highway_core/active_validator.rs`).

Timestamps and time differences are modelled as natural numbers of ticks and
validator indices as natural numbers.  The external protocol state is
consulted read-only and only through the interface listed in the
specification, so it is modelled as a record of functions (`StateView`).
The collaborator data types (`Observation`, `Panorama`, wire votes, block
contexts) are defined in modules that are not part of the translated
sources; they are modelled from the specification's data model, as marked on
each of their declarations.
-/

namespace Highway

/-- Modelled from the spec: an `Observation` is a panorama entry — nothing
seen from a validator, the hash of its latest vote, or a permanent fault
mark.  (`vote.rs`, which declares `Observation`, is not among the translated
sources.) -/
inductive Observation (Hash : Type) where
  | None : Observation Hash
  | Correct : Hash → Observation Hash
  | Faulty : Observation Hash
  deriving DecidableEq

namespace Observation

/-- Modelled from the spec: the vote hash of a `Correct` observation, if
any (mirrors the `Observation::correct` accessor used by the scheduler). -/
def correct {Hash : Type} : Observation Hash → Option Hash
  | .Correct h => some h
  | _ => none

end Observation

/-- Modelled from the spec: a panorama maps each validator index to an
observation; we represent it as the vector of observations, indexed by
validator index. -/
def Panorama (Hash : Type) : Type := List (Observation Hash)

instance {Hash : Type} [DecidableEq Hash] : DecidableEq (Panorama Hash) :=
  inferInstanceAs (DecidableEq (List (Observation Hash)))

namespace Panorama

/-- Modelled from the spec: the observation recorded for validator `idx`
(absent entries read as `None`, "nothing seen from this validator"). -/
def get {Hash : Type} (pan : Panorama Hash) (idx : Nat) : Observation Hash :=
  List.getD pan idx Observation.None

/-- Modelled from the spec: overwrite the observation for validator `idx`
(mirrors `Panorama::update`). -/
def update {Hash : Type} (pan : Panorama Hash) (idx : Nat) (obs : Observation Hash) :
    Panorama Hash :=
  List.set pan idx obs

/-- Modelled from the spec: a panorama is empty iff every entry is `None`. -/
def is_empty {Hash : Type} (pan : Panorama Hash) : Bool :=
  List.all pan fun obs =>
    match obs with
    | Observation.None => true
    | _ => false

end Panorama

/-- Modelled from the spec: the fields of a stored vote that the scheduler
reads (`state.rs`, which declares the full vote record, is not among the
translated sources). -/
structure Vote (Hash : Type) where
  panorama : Panorama Hash
  creator : Nat
  seq_number : Nat
  timestamp : Nat
  deriving DecidableEq

/-- Modelled from the spec: the payload of a consensus message
(`vertex.rs` is not among the translated sources). -/
structure WireVote (Hash Value : Type) where
  panorama : Panorama Hash
  creator : Nat
  value : Option Value
  seq_number : Nat
  timestamp : Nat
  deriving DecidableEq

/-- Modelled from the spec: a signed wire vote wraps a wire vote together
with a signature by the creator's secret key.  Signing itself is an abstract
external capability, so the signature is represented by the signing key that
produced it. -/
structure SignedWireVote (Hash Value Secret : Type) where
  wvote : WireVote Hash Value
  signature : Secret
  deriving DecidableEq

/-- Modelled from the spec: `SignedWireVote::new` signs the wire vote with
the given secret key. -/
def SignedWireVote.new {Hash Value Secret : Type} (wvote : WireVote Hash Value)
    (secret : Secret) : SignedWireVote Hash Value Secret :=
  ⟨wvote, secret⟩

/-- Modelled from the spec: a vertex of the consensus DAG; at this layer it
is always a signed wire vote. -/
inductive Vertex (Hash Value Secret : Type) where
  | Vote : SignedWireVote Hash Value Secret → Vertex Hash Value Secret
  deriving DecidableEq

/-- Modelled from the spec: a vertex that has passed local validation. -/
structure ValidVertex (Hash Value Secret : Type) where
  vertex : Vertex Hash Value Secret
  deriving DecidableEq

/-- Modelled from the spec: the context an external value provider needs to
build a block — at this layer, just the proposed block's timestamp
(`consensus_protocol.rs` is not among the translated sources). -/
structure BlockContext where
  timestamp : Nat
  deriving DecidableEq

/-- Modelled from the spec: `BlockContext::new`. -/
def BlockContext.new (timestamp : Nat) : BlockContext :=
  ⟨timestamp⟩

/-- An action taken by a validator (`Effect` in the source). -/
inductive Effect (Hash Value Secret : Type) where
  | NewVertex : ValidVertex Hash Value Secret → Effect Hash Value Secret
  | ScheduleTimer : Nat → Effect Hash Value Secret
  | RequestNewBlock : BlockContext → Effect Hash Value Secret
  deriving DecidableEq

/-- Whether an effect is a `RequestNewBlock`. -/
def Effect.isRequestNewBlock {Hash Value Secret : Type} :
    Effect Hash Value Secret → Bool
  | .RequestNewBlock _ => true
  | _ => false

/-- Modelled from the spec: the read-only view of the protocol state that
the scheduler consults (`state.rs` is not among the translated sources, so
the state is abstracted as the record of query functions listed in the
specification's external-interface section). -/
structure StateView (Hash Value : Type) where
  panorama : Panorama Hash
  vote : Hash → Vote Hash
  leader : Nat → Nat
  has_evidence : Nat → Bool
  faulty_validators : List Nat
  panorama_cutoff : Panorama Hash → Nat → Panorama Hash
  merge_panoramas : Panorama Hash → Panorama Hash → Panorama Hash
  sees_correct : Panorama Hash → Hash → Bool

/-- The scheduler's persistent state (`ActiveValidator` in the source). -/
structure ActiveValidator (Secret : Type) where
  vidx : Nat
  secret : Secret
  round_exp : Nat
  next_timer : Nat
  deriving DecidableEq

namespace ActiveValidator

variable {Hash Value Secret : Type}

/-- The length of a round, in ticks (`1u64 << self.round_exp`). -/
def round_len (av : ActiveValidator Secret) : Nat :=
  1 <<< av.round_exp

/-- The number of ticks after the beginning of a round when the witness
votes are sent. -/
def witness_offset (av : ActiveValidator Secret) : Nat :=
  av.round_len * 2 / 3

/-- The earliest timestamp where we can cast our next vote without
equivocating: the timestamp of our previous vote, or 0 if there is none. -/
def earliest_vote_time (av : ActiveValidator Secret) (state : StateView Hash Value) : Nat :=
  match (state.panorama.get av.vidx).correct with
  | some own_vh => (state.vote own_vh).timestamp
  | none => 0

/-- Returns a new vote with the given data, and the correct sequence
number. -/
def new_vote (av : ActiveValidator Secret) (panorama : Panorama Hash) (timestamp : Nat)
    (value : Option Value) (state : StateView Hash Value) :
    SignedWireVote Hash Value Secret :=
  let seq_number :=
    match (panorama.get av.vidx).correct with
    | some vh => (state.vote vh).seq_number + 1
    | none => 0
  SignedWireVote.new ⟨panorama, av.vidx, value, seq_number, timestamp⟩ av.secret

/-- Returns whether the incoming message is a proposal that we need to send
a confirmation for. -/
def should_send_confirmation (av : ActiveValidator Secret) (vhash : Hash) (timestamp : Nat)
    (state : StateView Hash Value) : Bool :=
  let vote := state.vote vhash
  if vote.timestamp > timestamp then
    false
  else
    decide (timestamp / av.round_len = vote.timestamp / av.round_len)
    && decide (state.leader vote.timestamp = vote.creator)
    && decide (vote.creator ≠ av.vidx)
    && !(state.has_evidence vote.creator)
    && (match (state.panorama.get av.vidx).correct with
        | some own_vh => !(state.sees_correct (state.vote own_vh).panorama vhash)
        | none => true)

/-- Returns the panorama of the confirmation for the leader vote `vhash`. -/
def confirmation_panorama (av : ActiveValidator Secret) (vhash : Hash)
    (state : StateView Hash Value) : Panorama Hash :=
  let vote := state.vote vhash
  let pan0 :=
    match (state.panorama.get av.vidx).correct with
    | some prev_hash =>
        let own_vote := state.vote prev_hash
        (state.merge_panoramas vote.panorama own_vote.panorama).update av.vidx
          (Observation.Correct prev_hash)
    | none => vote.panorama
  let pan1 := pan0.update vote.creator (Observation.Correct vhash)
  List.foldl (fun p fv => p.update fv Observation.Faulty) pan1 state.faulty_validators

/-- Returns a `ScheduleTimer` effect for the next time we need to be
called, together with the updated scheduler (the source mutates `self`
through `&mut`). -/
def schedule_timer (av : ActiveValidator Secret) (timestamp : Nat)
    (state : StateView Hash Value) :
    ActiveValidator Secret × List (Effect Hash Value Secret) :=
  if av.next_timer > timestamp then
    (av, [])
  else
    let round_offset := timestamp % av.round_len
    let round_id := timestamp - round_offset
    let next_timer :=
      if round_offset < av.witness_offset then
        round_id + av.witness_offset
      else if state.leader (round_id + av.round_len) = av.vidx then
        round_id + av.round_len
      else
        round_id + av.round_len + av.witness_offset
    ({ av with next_timer := next_timer }, [Effect.ScheduleTimer next_timer])

/-- Returns actions a validator needs to take at the specified `timestamp`,
with the given protocol `state` (the source mutates `self` through `&mut`,
so the updated scheduler is returned alongside the effects). -/
def handle_timer (av : ActiveValidator Secret) (timestamp : Nat)
    (state : StateView Hash Value) :
    ActiveValidator Secret × List (Effect Hash Value Secret) :=
  let res := av.schedule_timer timestamp state
  let av := res.1
  let effects := res.2
  if av.earliest_vote_time state > timestamp then
    (av, effects)
  else
    let round_offset := timestamp % av.round_len
    let round_id := timestamp - round_offset
    if round_offset = 0 ∧ state.leader round_id = av.vidx then
      (av, effects ++ [Effect.RequestNewBlock (BlockContext.new timestamp)])
    else if round_offset = av.witness_offset then
      let panorama := state.panorama_cutoff state.panorama timestamp
      if panorama.is_empty then
        (av, effects)
      else
        (av, effects ++ [Effect.NewVertex ⟨Vertex.Vote (av.new_vote panorama timestamp none state)⟩])
    else
      (av, effects)

/-- Returns actions a validator needs to take upon receiving a new vote
(`&self` receiver: the scheduler itself is not modified). -/
def on_new_vote (av : ActiveValidator Secret) (vhash : Hash) (timestamp : Nat)
    (state : StateView Hash Value) : List (Effect Hash Value Secret) :=
  if av.earliest_vote_time state > timestamp then
    []
  else if av.should_send_confirmation vhash timestamp state then
    let panorama := av.confirmation_panorama vhash state
    if panorama.is_empty then
      []
    else
      [Effect.NewVertex ⟨Vertex.Vote (av.new_vote panorama timestamp none state)⟩]
  else
    []

/-- Proposes a new block with the given consensus value (`&self` receiver:
the scheduler itself is not modified). -/
def propose (av : ActiveValidator Secret) (value : Value) (block_context : BlockContext)
    (state : StateView Hash Value) : List (Effect Hash Value Secret) :=
  let timestamp := block_context.timestamp
  if av.earliest_vote_time state > timestamp then
    []
  else
    let panorama := state.panorama_cutoff state.panorama timestamp
    let proposal_vote := av.new_vote panorama timestamp (some value) state
    [Effect.NewVertex ⟨Vertex.Vote proposal_vote⟩]

/-- Creates a new `ActiveValidator` and the timer effect for the first
call. -/
def new (vidx : Nat) (secret : Secret) (round_exp : Nat) (timestamp : Nat)
    (state : StateView Hash Value) :
    ActiveValidator Secret × List (Effect Hash Value Secret) :=
  let av : ActiveValidator Secret :=
    { vidx := vidx, secret := secret, round_exp := round_exp, next_timer := 0 }
  av.schedule_timer timestamp state

end ActiveValidator

/-- A single entry-point call of the running scheduler, bundled with the
state snapshot it is given.  `on_new_vote` and `propose` take the validator
by shared reference in the source, so their step leaves the scheduler
unchanged. -/
inductive Call (Hash Value : Type) where
  | handleTimer : Nat → StateView Hash Value → Call Hash Value
  | onNewVote : Hash → Nat → StateView Hash Value → Call Hash Value
  | proposeBlock : Value → BlockContext → StateView Hash Value → Call Hash Value

/-- The scheduler state after one entry-point call. -/
def Call.step {Hash Value Secret : Type} (av : ActiveValidator Secret) :
    Call Hash Value → ActiveValidator Secret
  | .handleTimer t state => (av.handle_timer t state).1
  | .onNewVote _ _ _ => av
  | .proposeBlock _ _ _ => av

/-- The scheduler state after a sequence of entry-point calls. -/
def Call.run {Hash Value Secret : Type} (av : ActiveValidator Secret)
    (calls : List (Call Hash Value)) : ActiveValidator Secret :=
  List.foldl Call.step av calls

/-- Concrete fixture: a previous own vote of validator 0. -/
def vote100 : Vote Nat :=
  { panorama := [Observation.None, Observation.None], creator := 0, seq_number := 2,
    timestamp := 410 }

/-- Concrete fixture: a proposal vote by validator 1. -/
def vote200 : Vote Nat :=
  { panorama := [Observation.None, Observation.None], creator := 1, seq_number := 5,
    timestamp := 416 }

/-- Concrete fixture: a two-validator state view in which validator 0 last
voted at tick 410 (hash 100) and validator 1 proposed at tick 416
(hash 200). -/
def sW : StateView Nat Nat :=
  { panorama := [Observation.Correct 100, Observation.Correct 200],
    vote := fun h => if h = 200 then vote200 else vote100,
    leader := fun _ => 1,
    has_evidence := fun _ => false,
    faulty_validators := [],
    panorama_cutoff := fun pan _ => pan,
    merge_panoramas := fun pan _ => pan,
    sees_correct := fun _ _ => false }

/-- Concrete fixture: validator 0's scheduler with round length 16. -/
def avW : ActiveValidator Nat :=
  { vidx := 0, secret := 7, round_exp := 4, next_timer := 0 }

/-- Concrete fixture: validator 1's scheduler with round length 16. -/
def avL : ActiveValidator Nat :=
  { vidx := 1, secret := 8, round_exp := 4, next_timer := 0 }

/-! ### Helper lemmas -/

variable {Hash Value Secret : Type}

theorem Panorama.get_update_ne {Hash : Type} (pan : Panorama Hash) {i j : Nat} (h : i ≠ j)
    (obs : Observation Hash) : (pan.update i obs).get j = pan.get j := by
  unfold Panorama.get Panorama.update
  rw [List.getD_eq_getElem?_getD, List.getD_eq_getElem?_getD, List.getElem?_set_ne h]

theorem Panorama.get_foldl_faulty {Hash : Type} (l : List Nat) (pan : Panorama Hash) {i : Nat}
    (h : i ∉ l) :
    (List.foldl (fun p fv => Panorama.update p fv Observation.Faulty) pan l).get i = pan.get i := by
  induction l generalizing pan with
  | nil => rfl
  | cons a l ih =>
      simp only [List.foldl_cons]
      rw [ih (Panorama.update pan a Observation.Faulty) (fun hm => h (List.mem_cons_of_mem a hm))]
      exact Panorama.get_update_ne pan
        (fun he : a = i => h (he ▸ List.mem_cons_self a l)) _

theorem round_len_pos (av : ActiveValidator Secret) : 0 < av.round_len := by
  simp only [ActiveValidator.round_len, Nat.shiftLeft_eq, Nat.one_mul]
  exact Nat.two_pow_pos _

theorem schedule_timer_fst_vidx (av : ActiveValidator Secret) (t : Nat)
    (state : StateView Hash Value) : ((av.schedule_timer t state).1).vidx = av.vidx := by
  unfold ActiveValidator.schedule_timer
  split <;> rfl

theorem schedule_timer_fst_secret (av : ActiveValidator Secret) (t : Nat)
    (state : StateView Hash Value) : ((av.schedule_timer t state).1).secret = av.secret := by
  unfold ActiveValidator.schedule_timer
  split <;> rfl

theorem schedule_timer_fst_round_exp (av : ActiveValidator Secret) (t : Nat)
    (state : StateView Hash Value) : ((av.schedule_timer t state).1).round_exp = av.round_exp := by
  unfold ActiveValidator.schedule_timer
  split <;> rfl

theorem schedule_timer_fst_earliest (av : ActiveValidator Secret) (t : Nat)
    (state state2 : StateView Hash Value) :
    ((av.schedule_timer t state).1).earliest_vote_time state2 = av.earliest_vote_time state2 := by
  unfold ActiveValidator.schedule_timer
  split <;> rfl

theorem schedule_timer_fst_round_len (av : ActiveValidator Secret) (t : Nat)
    (state : StateView Hash Value) :
    ((av.schedule_timer t state).1).round_len = av.round_len := by
  unfold ActiveValidator.schedule_timer
  split <;> rfl

theorem schedule_timer_fst_witness_offset (av : ActiveValidator Secret) (t : Nat)
    (state : StateView Hash Value) :
    ((av.schedule_timer t state).1).witness_offset = av.witness_offset := by
  unfold ActiveValidator.schedule_timer
  split <;> rfl

theorem schedule_timer_fst_new_vote (av : ActiveValidator Secret) (t : Nat)
    (state : StateView Hash Value) (pan : Panorama Hash) (u : Nat) (value : Option Value)
    (state2 : StateView Hash Value) :
    ((av.schedule_timer t state).1).new_vote pan u value state2 =
      av.new_vote pan u value state2 := by
  unfold ActiveValidator.schedule_timer
  split <;> rfl

theorem schedule_timer_effects_shape (av : ActiveValidator Secret) (t : Nat)
    (state : StateView Hash Value) :
    ∀ e ∈ (av.schedule_timer t state).2, ∃ ts, e = Effect.ScheduleTimer ts := by
  unfold ActiveValidator.schedule_timer
  split
  · intro e he
    exact absurd he (List.not_mem_nil e)
  · intro e he
    simp only [List.mem_singleton] at he
    exact ⟨_, he⟩

theorem schedule_timer_mono (av : ActiveValidator Secret) (t : Nat)
    (state : StateView Hash Value) :
    av.next_timer ≤ ((av.schedule_timer t state).1).next_timer := by
  unfold ActiveValidator.schedule_timer
  split
  · exact Nat.le_refl _
  · rename_i hle
    rw [gt_iff_lt, Nat.not_lt] at hle
    have h1 : t % av.round_len ≤ t := Nat.mod_le _ _
    have h2 : t % av.round_len < av.round_len := Nat.mod_lt _ (round_len_pos av)
    dsimp only
    split
    · omega
    · split <;> omega

theorem handle_timer_fst (av : ActiveValidator Secret) (t : Nat)
    (state : StateView Hash Value) :
    (av.handle_timer t state).1 = (av.schedule_timer t state).1 := by
  unfold ActiveValidator.handle_timer
  dsimp only
  split
  · rfl
  · split
    · rfl
    · split
      · split <;> rfl
      · rfl

/-! ### Claim theorems -/

/-- C2: `schedule_timer(t, state)` leaves the scheduler unchanged and
returns no effects when `next_timer > t` on entry; otherwise it sets
`next_timer` to `round_id(t) + witness_offset` when
`round_offset(t) < witness_offset`, else to `round_id(t) + L` when the
validator is next round's leader, else to
`round_id(t) + L + witness_offset` (with `L = 1 << round_exp`,
`witness_offset = L * 2 / 3`, `round_offset(t) = t mod L`,
`round_id(t) = t - round_offset(t)`), and returns exactly one
`ScheduleTimer(next_timer)` effect. -/
theorem schedule_timer_correct (av : ActiveValidator Secret) (t : Nat)
    (state : StateView Hash Value) :
    av.schedule_timer t state =
      if av.next_timer > t then (av, [])
      else
        let L := 2 ^ av.round_exp
        let woff := L * 2 / 3
        let rid := t - t % L
        let nt :=
          if t % L < woff then rid + woff
          else if state.leader (rid + L) = av.vidx then rid + L
          else rid + L + woff
        ({ av with next_timer := nt }, [Effect.ScheduleTimer nt]) := by
  simp only [ActiveValidator.schedule_timer, ActiveValidator.witness_offset,
    ActiveValidator.round_len, Nat.shiftLeft_eq, Nat.one_mul]

/-- C8: timer monotonicity (P5) — no single entry-point call decreases the
`next_timer` field, and across any sequence of entry-point calls (with
arbitrary timestamps and state snapshots) it is non-decreasing. -/
theorem next_timer_monotone (av : ActiveValidator Secret) (calls : List (Call Hash Value)) :
    (∀ c : Call Hash Value, av.next_timer ≤ (Call.step av c).next_timer) ∧
      av.next_timer ≤ (Call.run av calls).next_timer := by
  have hstep : ∀ (av : ActiveValidator Secret) (c : Call Hash Value),
      av.next_timer ≤ (Call.step av c).next_timer := by
    intro av c
    cases c with
    | handleTimer t state =>
        simp only [Call.step, handle_timer_fst]
        exact schedule_timer_mono av t state
    | onNewVote vhash t state => exact Nat.le_refl _
    | proposeBlock v bctx state => exact Nat.le_refl _
  refine ⟨hstep av, ?_⟩
  induction calls generalizing av with
  | nil => exact Nat.le_refl _
  | cons c cs ih =>
      simp only [Call.run, List.foldl_cons] at ih ⊢
      exact Nat.le_trans (hstep av c) (ih _)

/-- C9 counterexample: in this (total) embedding every execution path of
`ActiveValidator::new` produces a value, and with `round_exp = 0` — a round
length `L = 1 < 3` — the constructor returns normally, producing the
ordinary construction-plus-reschedule result; no fatal path exists for such
a `round_exp`. -/
theorem new_small_round_exp_cex :
    (ActiveValidator.new 0 (7 : Nat) 0 410 sW :
        ActiveValidator Nat × List (Effect Nat Nat Nat)) =
      ({ vidx := 0, secret := 7, round_exp := 0, next_timer := 411 },
        [Effect.ScheduleTimer 411]) := by
  decide

/-- C9 (amended): the constructor performs no `round_exp` validation: even
for a `round_exp` whose round length `1 << round_exp` is less than 3 it
returns normally, with `vidx`, `secret` and `round_exp` taken from its
arguments and exactly one `ScheduleTimer` effect. -/
theorem new_no_round_exp_validation (vidx : Nat) (secret : Secret)
    (round_exp t : Nat) (state : StateView Hash Value) (h : 1 <<< round_exp < 3) :
    (ActiveValidator.new vidx secret round_exp t state).1.vidx = vidx ∧
    (ActiveValidator.new vidx secret round_exp t state).1.secret = secret ∧
    (ActiveValidator.new vidx secret round_exp t state).1.round_exp = round_exp ∧
    (ActiveValidator.new vidx secret round_exp t state).2 =
      [Effect.ScheduleTimer ((ActiveValidator.new vidx secret round_exp t state).1.next_timer)] := by
  unfold ActiveValidator.new ActiveValidator.schedule_timer
  dsimp only
  rw [if_neg (by exact Nat.not_lt_zero t)]
  exact ⟨rfl, rfl, rfl, rfl⟩

/-- C9 witness: the amended theorem applied at `round_exp = 0`. -/
theorem new_no_round_exp_validation_witness :
    (1 <<< 0) < 3 ∧
      (ActiveValidator.new 1 (9 : Nat) 0 5 sW :
          ActiveValidator Nat × List (Effect Nat Nat Nat)).2 =
        [Effect.ScheduleTimer
          ((ActiveValidator.new 1 (9 : Nat) 0 5 sW :
              ActiveValidator Nat × List (Effect Nat Nat Nat)).1.next_timer)] :=
  ⟨by decide, (new_no_round_exp_validation 1 9 0 5 sW (by decide)).2.2.2⟩

/-- C10: frame property — `on_new_vote` and `propose` take the scheduler by
shared reference and leave every field unchanged; `handle_timer` and its
embedded `schedule_timer` can write only `next_timer`, never `vidx`,
`secret` or `round_exp`; and `new` sets `vidx`, `secret` and `round_exp`
once, from its arguments. -/
theorem frame_properties (av : ActiveValidator Secret) :
    (∀ (vhash : Hash) (t : Nat) (state : StateView Hash Value),
        Call.step av (Call.onNewVote vhash t state) = av) ∧
    (∀ (value : Value) (bctx : BlockContext) (state : StateView Hash Value),
        Call.step av (Call.proposeBlock value bctx state) = av) ∧
    (∀ (t : Nat) (state : StateView Hash Value),
        (av.handle_timer t state).1.vidx = av.vidx ∧
        (av.handle_timer t state).1.secret = av.secret ∧
        (av.handle_timer t state).1.round_exp = av.round_exp ∧
        (av.schedule_timer t state).1.vidx = av.vidx ∧
        (av.schedule_timer t state).1.secret = av.secret ∧
        (av.schedule_timer t state).1.round_exp = av.round_exp) ∧
    (∀ (vidx : Nat) (secret : Secret) (round_exp t : Nat) (state : StateView Hash Value),
        (ActiveValidator.new vidx secret round_exp t state).1.vidx = vidx ∧
        (ActiveValidator.new vidx secret round_exp t state).1.secret = secret ∧
        (ActiveValidator.new vidx secret round_exp t state).1.round_exp = round_exp) := by
  refine ⟨fun _ _ _ => rfl, fun _ _ _ => rfl, fun t state => ?_, fun vidx secret re t state => ?_⟩
  · rw [handle_timer_fst]
    exact ⟨schedule_timer_fst_vidx av t state, schedule_timer_fst_secret av t state,
      schedule_timer_fst_round_exp av t state, schedule_timer_fst_vidx av t state,
      schedule_timer_fst_secret av t state, schedule_timer_fst_round_exp av t state⟩
  · unfold ActiveValidator.new
    dsimp only
    exact ⟨schedule_timer_fst_vidx _ t state, schedule_timer_fst_secret _ t state,
      schedule_timer_fst_round_exp _ t state⟩

/-- C1: with a non-stale timestamp (`earliest_vote_time(state) ≤ t`),
`should_send_confirmation(vhash, t, state)` is true iff all six spec
conditions hold — the vote is not future-dated, it is in the same round as
`t`, its creator is that round's leader, the creator is not ourselves, the
creator has no evidence against it, and our previous own vote (if any) does
not already see it — and `on_new_vote` emits exactly one confirmation
`NewVertex` iff the predicate holds and the confirmation panorama is
non-empty, returning the empty effect list otherwise. -/
theorem confirmation_decision_correct (av : ActiveValidator Secret) (vhash : Hash)
    (t : Nat) (state : StateView Hash Value)
    (h : av.earliest_vote_time state ≤ t) :
    (av.should_send_confirmation vhash t state = true ↔
      ((state.vote vhash).timestamp ≤ t ∧
       (state.vote vhash).timestamp / (2 ^ av.round_exp) = t / (2 ^ av.round_exp) ∧
       state.leader (state.vote vhash).timestamp = (state.vote vhash).creator ∧
       (state.vote vhash).creator ≠ av.vidx ∧
       state.has_evidence (state.vote vhash).creator = false ∧
       (∀ own, state.panorama.get av.vidx = Observation.Correct own →
          state.sees_correct (state.vote own).panorama vhash = false))) ∧
    (av.on_new_vote vhash t state =
      if av.should_send_confirmation vhash t state = true ∧
          (av.confirmation_panorama vhash state).is_empty = false then
        [Effect.NewVertex ⟨Vertex.Vote
          (av.new_vote (av.confirmation_panorama vhash state) t none state)⟩]
      else []) := by
  constructor
  · unfold ActiveValidator.should_send_confirmation
    dsimp only
    split
    · rename_i hfut
      rw [gt_iff_lt] at hfut
      refine iff_of_false (by simp) ?_
      rintro ⟨h1, -⟩
      omega
    · rename_i hnf
      rw [gt_iff_lt, Nat.not_lt] at hnf
      have hL : av.round_len = 2 ^ av.round_exp := by
        simp [ActiveValidator.round_len, Nat.shiftLeft_eq]
      rw [hL]
      cases hobs : state.panorama.get av.vidx with
      | None =>
          simp only [hobs, Observation.correct]
          constructor
          · intro hb
            obtain ⟨hb4, -⟩ := Bool.and_eq_true _ _ ▸ hb
            obtain ⟨hb3, hE⟩ := Bool.and_eq_true _ _ ▸ hb4
            obtain ⟨hb2, hC⟩ := Bool.and_eq_true _ _ ▸ hb3
            obtain ⟨hA, hB⟩ := Bool.and_eq_true _ _ ▸ hb2
            exact ⟨hnf, (of_decide_eq_true hA).symm, of_decide_eq_true hB,
              of_decide_eq_true hC, Bool.not_eq_true' _ ▸ hE,
              fun own hown => by cases hown⟩
          · rintro ⟨-, h1, h2, h3, h4, -⟩
            rw [decide_eq_true h1.symm, decide_eq_true h2, decide_eq_true h3, h4]
            rfl
      | Correct own =>
          simp only [hobs, Observation.correct]
          constructor
          · intro hb
            obtain ⟨hb4, hM⟩ := Bool.and_eq_true _ _ ▸ hb
            obtain ⟨hb3, hE⟩ := Bool.and_eq_true _ _ ▸ hb4
            obtain ⟨hb2, hC⟩ := Bool.and_eq_true _ _ ▸ hb3
            obtain ⟨hA, hB⟩ := Bool.and_eq_true _ _ ▸ hb2
            refine ⟨hnf, (of_decide_eq_true hA).symm, of_decide_eq_true hB,
              of_decide_eq_true hC, Bool.not_eq_true' _ ▸ hE, ?_⟩
            intro own2 hown
            cases hown
            exact Bool.not_eq_true' _ ▸ hM
          · rintro ⟨-, h1, h2, h3, h4, h5⟩
            rw [decide_eq_true h1.symm, decide_eq_true h2, decide_eq_true h3, h4, h5 own rfl]
            rfl
      | Faulty =>
          simp only [hobs, Observation.correct]
          constructor
          · intro hb
            obtain ⟨hb4, -⟩ := Bool.and_eq_true _ _ ▸ hb
            obtain ⟨hb3, hE⟩ := Bool.and_eq_true _ _ ▸ hb4
            obtain ⟨hb2, hC⟩ := Bool.and_eq_true _ _ ▸ hb3
            obtain ⟨hA, hB⟩ := Bool.and_eq_true _ _ ▸ hb2
            exact ⟨hnf, (of_decide_eq_true hA).symm, of_decide_eq_true hB,
              of_decide_eq_true hC, Bool.not_eq_true' _ ▸ hE,
              fun own hown => by cases hown⟩
          · rintro ⟨-, h1, h2, h3, h4, -⟩
            rw [decide_eq_true h1.symm, decide_eq_true h2, decide_eq_true h3, h4]
            rfl
  · unfold ActiveValidator.on_new_vote
    dsimp only
    rw [if_neg (Nat.not_lt.mpr h)]
    cases hs : av.should_send_confirmation vhash t state <;>
      cases he : (av.confirmation_panorama vhash state).is_empty <;>
        simp [hs, he]

/-- C1 witness: the `on_new_vote` characterisation applied to the fixture
in which validator 0 receives validator 1's round-416 proposal at tick
419. -/
theorem confirmation_decision_correct_witness :
    avW.earliest_vote_time sW ≤ 419 ∧
      avW.on_new_vote 200 419 sW =
        (if avW.should_send_confirmation 200 419 sW = true ∧
            (avW.confirmation_panorama 200 sW).is_empty = false then
          [Effect.NewVertex ⟨Vertex.Vote
            (avW.new_vote (avW.confirmation_panorama 200 sW) 419 none sW)⟩]
        else []) :=
  ⟨by decide, (confirmation_decision_correct avW 200 419 sW (by decide)).2⟩

/-- C3: with a non-stale timestamp, `handle_timer(t, state)` appends to its
embedded `schedule_timer` effects a `RequestNewBlock(BlockContext{t})` iff
`round_offset(t) = 0` and the validator leads `round_id(t)`; otherwise, at
the witness offset, it appends one witness `NewVertex` iff the cutoff
panorama is non-empty; and no entry point or branch other than that
proposal branch ever produces a `RequestNewBlock`. -/
theorem handle_timer_emissions_correct (av : ActiveValidator Secret) (t : Nat)
    (state : StateView Hash Value) :
    (av.earliest_vote_time state ≤ t →
      (av.handle_timer t state).2 =
        (av.schedule_timer t state).2 ++
          (if t % (2 ^ av.round_exp) = 0 ∧
              state.leader (t - t % (2 ^ av.round_exp)) = av.vidx then
            [Effect.RequestNewBlock (BlockContext.new t)]
          else if t % (2 ^ av.round_exp) = 2 ^ av.round_exp * 2 / 3 then
            (if (state.panorama_cutoff state.panorama t).is_empty then []
             else [Effect.NewVertex ⟨Vertex.Vote
               (av.new_vote (state.panorama_cutoff state.panorama t) t none state)⟩])
          else [])) ∧
    (∀ bctx, Effect.RequestNewBlock bctx ∈ (av.handle_timer t state).2 →
      av.earliest_vote_time state ≤ t ∧ t % (2 ^ av.round_exp) = 0 ∧
        state.leader (t - t % (2 ^ av.round_exp)) = av.vidx ∧ bctx = BlockContext.new t) ∧
    (∀ (vhash : Hash) e, e ∈ av.on_new_vote vhash t state → e.isRequestNewBlock = false) ∧
    (∀ (value : Value) bctx e, e ∈ av.propose value bctx state →
      e.isRequestNewBlock = false) ∧
    (∀ e, e ∈ (av.schedule_timer t state).2 → e.isRequestNewBlock = false) ∧
    (∀ (vidx : Nat) (secret : Secret) re e,
      e ∈ (ActiveValidator.new vidx secret re t state).2 → e.isRequestNewBlock = false) := by
  have hL : av.round_len = 2 ^ av.round_exp := by
    simp [ActiveValidator.round_len, Nat.shiftLeft_eq]
  have hwoff : av.witness_offset = 2 ^ av.round_exp * 2 / 3 := by
    simp [ActiveValidator.witness_offset, hL]
  refine ⟨?_, ?_, ?_, ?_, ?_, ?_⟩
  · intro h
    have hng : ¬ ((av.schedule_timer t state).1.earliest_vote_time state > t) := by
      rw [schedule_timer_fst_earliest]
      exact Nat.not_lt.mpr h
    unfold ActiveValidator.handle_timer
    dsimp only
    rw [if_neg hng]
    simp only [schedule_timer_fst_round_len, schedule_timer_fst_vidx,
      schedule_timer_fst_witness_offset, schedule_timer_fst_new_vote, hL, hwoff]
    split_ifs <;> simp
  · intro bctx hmem
    unfold ActiveValidator.handle_timer at hmem
    dsimp only at hmem
    split at hmem
    · rcases schedule_timer_effects_shape av t state _ hmem with ⟨ts, hts⟩
      cases hts
    · rename_i hng
      rw [gt_iff_lt, Nat.not_lt, schedule_timer_fst_earliest] at hng
      split at hmem
      · rename_i hcond
        rw [List.mem_append] at hmem
        rcases hmem with hmem | hmem
        · rcases schedule_timer_effects_shape av t state _ hmem with ⟨ts, hts⟩
          cases hts
        · rw [List.mem_singleton] at hmem
          cases hmem
          rw [schedule_timer_fst_round_len, schedule_timer_fst_vidx, hL] at hcond
          exact ⟨hng, hcond.1, hcond.2, rfl⟩
      · split at hmem
        · split at hmem
          · rcases schedule_timer_effects_shape av t state _ hmem with ⟨ts, hts⟩
            cases hts
          · rw [List.mem_append] at hmem
            rcases hmem with hmem | hmem
            · rcases schedule_timer_effects_shape av t state _ hmem with ⟨ts, hts⟩
              cases hts
            · rw [List.mem_singleton] at hmem
              cases hmem
        · rcases schedule_timer_effects_shape av t state _ hmem with ⟨ts, hts⟩
          cases hts
  · intro vhash e he
    unfold ActiveValidator.on_new_vote at he
    dsimp only at he
    split at he
    · exact absurd he (List.not_mem_nil e)
    · split at he
      · split at he
        · exact absurd he (List.not_mem_nil e)
        · rw [List.mem_singleton] at he
          subst he
          rfl
      · exact absurd he (List.not_mem_nil e)
  · intro value bctx e he
    unfold ActiveValidator.propose at he
    dsimp only at he
    split at he
    · exact absurd he (List.not_mem_nil e)
    · rw [List.mem_singleton] at he
      subst he
      rfl
  · intro e he
    rcases schedule_timer_effects_shape av t state _ he with ⟨ts, rfl⟩
    rfl
  · intro vidx secret re e he
    unfold ActiveValidator.new at he
    dsimp only at he
    rcases schedule_timer_effects_shape _ t state _ he with ⟨ts, rfl⟩
    rfl

/-- C3 witness: the `handle_timer` characterisation applied to validator 1
at its proposal tick 416 (she leads round 416, so a `RequestNewBlock` is
appended). -/
theorem handle_timer_emissions_correct_witness :
    avL.earliest_vote_time sW ≤ 416 ∧
      (avL.handle_timer 416 sW).2 =
        (avL.schedule_timer 416 sW).2 ++
          (if 416 % (2 ^ avL.round_exp) = 0 ∧
              sW.leader (416 - 416 % (2 ^ avL.round_exp)) = avL.vidx then
            [Effect.RequestNewBlock (BlockContext.new 416)]
          else if 416 % (2 ^ avL.round_exp) = 2 ^ avL.round_exp * 2 / 3 then
            (if (sW.panorama_cutoff sW.panorama 416).is_empty then []
             else [Effect.NewVertex ⟨Vertex.Vote
               (avL.new_vote (sW.panorama_cutoff sW.panorama 416) 416 none sW)⟩])
          else []) :=
  ⟨by decide, (handle_timer_emissions_correct avL 416 sW).1 (by decide)⟩

/-- C4: `confirmation_panorama(vhash, state)` merges the proposal panorama
with our previous own panorama and pins our own slot when we have a prior
own vote, and otherwise starts from the proposal panorama alone; in both
cases the creator slot is then pinned to `Correct(vhash)` and every faulty
validator overwritten to `Faulty`; and in the no-prior case the function
never writes the self slot (it stays `None` whenever the proposal itself
leaves it `None` and neither the creator pin nor the faulty overlay touches
it). -/
theorem confirmation_panorama_correct (av : ActiveValidator Secret) (vhash : Hash)
    (state : StateView Hash Value) :
    (∀ prev, state.panorama.get av.vidx = Observation.Correct prev →
      av.confirmation_panorama vhash state =
        List.foldl (fun p fv => p.update fv Observation.Faulty)
          (((state.merge_panoramas (state.vote vhash).panorama
              (state.vote prev).panorama).update av.vidx
            (Observation.Correct prev)).update (state.vote vhash).creator
            (Observation.Correct vhash))
          state.faulty_validators) ∧
    ((state.panorama.get av.vidx).correct = none →
      av.confirmation_panorama vhash state =
        List.foldl (fun p fv => p.update fv Observation.Faulty)
          (((state.vote vhash).panorama).update (state.vote vhash).creator
            (Observation.Correct vhash))
          state.faulty_validators) ∧
    ((state.panorama.get av.vidx).correct = none →
      ((state.vote vhash).panorama).get av.vidx = Observation.None →
      (state.vote vhash).creator ≠ av.vidx →
      av.vidx ∉ state.faulty_validators →
      (av.confirmation_panorama vhash state).get av.vidx = Observation.None) := by
  have hnone : (state.panorama.get av.vidx).correct = none →
      av.confirmation_panorama vhash state =
        List.foldl (fun p fv => p.update fv Observation.Faulty)
          (((state.vote vhash).panorama).update (state.vote vhash).creator
            (Observation.Correct vhash))
          state.faulty_validators := by
    intro hc
    unfold ActiveValidator.confirmation_panorama
    simp only [hc]
  refine ⟨?_, hnone, ?_⟩
  · intro prev hp
    unfold ActiveValidator.confirmation_panorama
    simp only [hp, Observation.correct]
  · intro hc hNone hcr hnf
    rw [hnone hc, Panorama.get_foldl_faulty _ _ hnf, Panorama.get_update_ne _ hcr _]
    exact hNone

/-- C4 witness: the prior-own-vote case applied to the fixture (validator
0's previous vote has hash 100, the proposal hash 200). -/
theorem confirmation_panorama_correct_witness :
    avW.confirmation_panorama 200 sW =
      List.foldl (fun p fv => p.update fv Observation.Faulty)
        (((sW.merge_panoramas (sW.vote 200).panorama (sW.vote 100).panorama).update avW.vidx
          (Observation.Correct 100)).update (sW.vote 200).creator (Observation.Correct 200))
        sW.faulty_validators :=
  (confirmation_panorama_correct avW 200 sW).1 100 (by decide)

/-- C5: stale-input guard — when the input timestamp is strictly below
`earliest_vote_time(state)`, `handle_timer` returns exactly its embedded
`schedule_timer` result (all of whose effects are `ScheduleTimer`s, so no
`NewVertex` and no `RequestNewBlock`), and `on_new_vote` and `propose`
return the empty effect list. -/
theorem stale_input_guard (av : ActiveValidator Secret) (vhash : Hash) (value : Value)
    (t : Nat) (state : StateView Hash Value)
    (h : t < av.earliest_vote_time state) :
    av.handle_timer t state = av.schedule_timer t state ∧
    av.on_new_vote vhash t state = [] ∧
    av.propose value (BlockContext.new t) state = [] ∧
    (∀ e ∈ (av.handle_timer t state).2, ∃ ts, e = Effect.ScheduleTimer ts) := by
  have hgt : ((av.schedule_timer t state).1).earliest_vote_time state > t := by
    rw [schedule_timer_fst_earliest]
    exact h
  have hht : av.handle_timer t state = av.schedule_timer t state := by
    unfold ActiveValidator.handle_timer
    dsimp only
    rw [if_pos hgt]
  refine ⟨hht, ?_, ?_, ?_⟩
  · unfold ActiveValidator.on_new_vote
    rw [if_pos h]
  · unfold ActiveValidator.propose
    simp only [BlockContext.new]
    rw [if_pos h]
  · rw [hht]
    exact schedule_timer_effects_shape av t state

/-- C5 witness: the guard applied to the fixture at tick 400, below
validator 0's previous-vote timestamp 410. -/
theorem stale_input_guard_witness :
    avW.handle_timer 400 sW = avW.schedule_timer 400 sW ∧
    avW.on_new_vote 100 400 sW = [] ∧
    avW.propose 5 (BlockContext.new 400) sW = [] := by
  have h := stale_input_guard avW 100 5 400 sW (by decide)
  exact ⟨h.1, h.2.1, h.2.2.1⟩

/-- C6: `new_vote(panorama, t, value_opt, state)` returns a signed wire
vote whose creator is `self.vidx`, timestamp is `t`, value is `value_opt`,
panorama is the argument unchanged, and whose sequence number is
`state.vote(h).seq_number + 1` when the panorama's self slot is
`Correct(h)` and `0` when it is not `Correct`. -/
theorem new_vote_fields_correct (av : ActiveValidator Secret) (pan : Panorama Hash)
    (t : Nat) (value_opt : Option Value) (state : StateView Hash Value) :
    (av.new_vote pan t value_opt state).wvote.creator = av.vidx ∧
    (av.new_vote pan t value_opt state).wvote.timestamp = t ∧
    (av.new_vote pan t value_opt state).wvote.value = value_opt ∧
    (av.new_vote pan t value_opt state).wvote.panorama = pan ∧
    (av.new_vote pan t value_opt state).wvote.seq_number =
      (match pan.get av.vidx with
       | Observation.Correct h => (state.vote h).seq_number + 1
       | _ => 0) := by
  refine ⟨rfl, rfl, rfl, rfl, ?_⟩
  unfold ActiveValidator.new_vote
  cases hobs : pan.get av.vidx <;> simp [hobs, Observation.correct, SignedWireVote.new]

/-- C7: `propose(value, ctx, state)` with a non-stale context returns
exactly one effect — a `NewVertex` whose signed proposal vote carries
`value = Some(value)`, `timestamp = ctx.timestamp`, `creator = self.vidx`
and the cutoff panorama — for every state and value, with no emptiness
check on the cutoff panorama and no leader or proposal-tick check. -/
theorem propose_emission_correct (av : ActiveValidator Secret) (value : Value)
    (bctx : BlockContext) (state : StateView Hash Value)
    (h : av.earliest_vote_time state ≤ bctx.timestamp) :
    av.propose value bctx state =
      [Effect.NewVertex ⟨Vertex.Vote
        (av.new_vote (state.panorama_cutoff state.panorama bctx.timestamp) bctx.timestamp
          (some value) state)⟩] ∧
    (av.new_vote (state.panorama_cutoff state.panorama bctx.timestamp) bctx.timestamp
        (some value) state).wvote.value = some value ∧
    (av.new_vote (state.panorama_cutoff state.panorama bctx.timestamp) bctx.timestamp
        (some value) state).wvote.timestamp = bctx.timestamp ∧
    (av.new_vote (state.panorama_cutoff state.panorama bctx.timestamp) bctx.timestamp
        (some value) state).wvote.creator = av.vidx ∧
    (av.new_vote (state.panorama_cutoff state.panorama bctx.timestamp) bctx.timestamp
        (some value) state).wvote.panorama =
      state.panorama_cutoff state.panorama bctx.timestamp := by
  refine ⟨?_, rfl, rfl, rfl, rfl⟩
  unfold ActiveValidator.propose
  dsimp only
  rw [if_neg (Nat.not_lt.mpr h)]

/-- C7 witness: `propose` applied to the fixture with value 42 at tick
416. -/
theorem propose_emission_correct_witness :
    avW.earliest_vote_time sW ≤ (BlockContext.new 416).timestamp ∧
      avW.propose 42 (BlockContext.new 416) sW =
        [Effect.NewVertex ⟨Vertex.Vote
          (avW.new_vote (sW.panorama_cutoff sW.panorama (BlockContext.new 416).timestamp)
            (BlockContext.new 416).timestamp (some 42) sW)⟩] :=
  ⟨by decide, (propose_emission_correct avW 42 (BlockContext.new 416) sW (by decide)).1⟩

end Highway
